import Mathlib

/-!
Verification of the deployment-package build and identity pipeline of the
`runway-hook-awslambda` repository, as a shallow embedding in Lean 4.

Each definition is translated from a named Python source location
(`awslambda/source_code.py`, `awslambda/deployment_package.py`,
`awslambda/python_requirements/_python_project.py`, `awslambda/docker.py`,
`awslambda/exceptions.py`).  External collaborators (hashlib, the S3 client,
the Docker daemon, the filesystem) are modelled as explicit inputs: the
filesystem as data, S3/Docker responses as structures, and the MD5 digest as
an arbitrary function of the byte stream fed to it.
-/

/-- UTF-8 bytes of a string, as Python `str.encode()`. -/
def strBytes (s : String) : List Nat := s.toUTF8.toList.map UInt8.toNat

/-- Lookup in a Python dict built by a comprehension over a key/value list
(last occurrence of a key wins), e.g. `{t["Key"]: t["Value"] for t in TagSet}`
followed by `d[k]` / `k in d`. -/
def dget (d : List (String × String)) (k : String) : Option String :=
  ((d.filter (fun p => p.1 == k)).getLast?).map (fun p => p.2)

/-! ### Source tree model (`awslambda/source_code.py`)

A filesystem entry below `root_directory`, as produced by
`root_directory.rglob("*")`: its path relative to the root, whether it is a
directory, and its raw content bytes.  Paths are represented the way
`pathlib` compares them: as their list of components (`Path.parts`).
`PurePath.__lt__` compares the case-normalized component lists, and Python
list-of-str comparison is exactly the lexicographic order on `List String`;
note this differs from comparing the joined path strings (`a/b` sorts before
`a.c` as a path but after it as a string). -/

structure SrcEntry where
  relParts : List String
  isDir : Bool
  content : List Nat
deriving DecidableEq

/-- `SourceCode`: a root directory (as its component list), the `rglob`
enumeration of its descendants (in arbitrary filesystem order), and the
gitignore filter (`gitignore_filter.match`, applied to the absolute path of
an entry). -/
structure SourceCode where
  rootParts : List String
  entries : List SrcEntry
  ignore : List String → Bool

/-- Component list of the absolute path of an entry (`child` in
`SourceCode.__iter__`): the root's components followed by the entry's
relative components. -/
def SourceCode.absParts (t : SourceCode) (e : SrcEntry) : List String :=
  t.rootParts ++ e.relParts

/-- `SourceCode.__iter__`: yield files (not directories) that do not match the
ignore filter. -/
def SourceCode.iter (t : SourceCode) : List SrcEntry :=
  t.entries.filter (fun e => !e.isDir && !t.ignore (t.absParts e))

/-- Comparison used by `sorted(self)` in `SourceCode.sorted`: Python sorts the
yielded absolute `Path` objects, and `pathlib` orders paths by their
component lists. -/
def SourceCode.pathLE (t : SourceCode) (a b : SrcEntry) : Bool :=
  t.absParts a ≤ t.absParts b

/-- `SourceCode.sorted()`: sorted list of source files excluding those that
match the ignore filter (`reverse=False`, as used by `md5_hash`). -/
def SourceCode.sorted (t : SourceCode) : List SrcEntry :=
  t.iter.mergeSort t.pathLE

/-- `read_size = 1024 * 10_000_000`: bytes per read in `SourceCode.md5_hash`. -/
def readSize : Nat := 1024 * 10000000

/-- The chunks produced by the read loop of `SourceCode.md5_hash`
(`chunk = buf.read(read_size)` repeated until empty). -/
def md5ReadChunks (l : List Nat) : List (List Nat) :=
  if l = [] then [] else l.take readSize :: md5ReadChunks (l.drop readSize)
termination_by l.length
decreasing_by
  rename_i h
  simpa [List.length_drop] using
    Nat.sub_lt (List.length_pos.mpr h) (by decide : 0 < readSize)

/-- `str()` of a relative POSIX path: its components joined by `/`. -/
def joinParts (ps : List String) : String := String.intercalate "/" ps

/-- One iteration of the `for source_file in self.sorted()` loop of
`SourceCode.md5_hash`: feed `str(relative_path) + "\0"` (UTF-8; NUL encodes
to the single byte 0), then the file bytes chunk by chunk, then a final NUL,
into the running digest.  The digest state is the byte stream fed so far. -/
def feedFile (acc : List Nat) (e : SrcEntry) : List Nat :=
  ((md5ReadChunks e.content).foldl (· ++ ·)
    (acc ++ strBytes (joinParts e.relParts) ++ [0])) ++ [0]

/-- The full byte stream fed to `hashlib.md5()` by `SourceCode.md5_hash`. -/
def SourceCode.md5Stream (t : SourceCode) : List Nat :=
  t.sorted.foldl feedFile []

/-- `SourceCode.md5_hash`: the hex digest of the directory contents.  The MD5
hex digest is modelled as an arbitrary function `digest` of the byte stream
fed to the hash object. -/
def SourceCode.md5_hash (digest : List Nat → String) (t : SourceCode) : String :=
  digest t.md5Stream

/-- The relative-path/content pair of an entry: the data that determines its
contribution to the hash. -/
def entryKey (e : SrcEntry) : List String × List Nat := (e.relParts, e.content)

/-- Comparison of accepted files by path relative to the root (path
comparison, i.e. by component lists). -/
def relLE (a b : SrcEntry) : Bool := a.relParts ≤ b.relParts

/-- Modelled from the spec: the spec describes the hash input as obtained by
sorting the accepted files by path relative to the root. -/
def specSortedByRel (t : SourceCode) : List SrcEntry :=
  t.iter.mergeSort relLE

/-- The hash-input block contributed by one file:
`relative_path` bytes, a NUL, the content bytes, a trailing NUL. -/
def hashBlock (k : List String × List Nat) : List Nat :=
  strBytes (joinParts k.1) ++ [0] ++ k.2 ++ [0]

/-- Modelled from the spec: for each file in relative-path-sorted order, feed
`relative_path + NUL`, the raw bytes, and a trailing NUL. -/
def specHashStream (t : SourceCode) : List Nat :=
  (specSortedByRel t).foldl
    (fun acc e => acc ++ strBytes (joinParts e.relParts) ++ [0] ++ e.content ++ [0]) []

/-! ### Package identity (`awslambda/deployment_package.py`) -/

/-- The project data consumed by `DeploymentPackage`
(`awslambda/base_classes.py` `Project` and hook args). -/
structure Project where
  srcRootName : String
  srcHash : String
  buildDirectory : String
  bucketName : String
  objectPfx : Option String
  runtime : String

/-- File name of the archive: `{source_code.root_directory.name}.{md5_hash}.zip`
(`DeploymentPackage.archive_file`). -/
def archiveFileName (p : Project) : String :=
  p.srcRootName ++ "." ++ p.srcHash ++ ".zip"

/-- Full path of the archive: `project.build_directory / archive file name`. -/
def archiveFilePath (p : Project) : String :=
  p.buildDirectory ++ "/" ++ archiveFileName p

/-- Python `s.lstrip("/").rstrip("/")`. -/
def stripSlashes (s : String) : String :=
  let l := s.toList.dropWhile (fun c => c == '/')
  String.mk (l.reverse.dropWhile (fun c => c == '/')).reverse

/-- `DeploymentPackage.object_key`: `awslambda/functions/{pfx/}{file name}`;
the user part is included only when `object_prefix` is truthy. -/
def object_key (p : Project) : String :=
  let base := "awslambda/functions"
  let pfx := match p.objectPfx with
    | some op => if op = "" then base else base ++ "/" ++ stripSlashes op
    | none => base
  pfx ++ "/" ++ archiveFileName p

/-! ### Local build state machine (`DeploymentPackage.build`) -/

/-- `SIZE_EOCD = 22`: size of a zip End of Central Directory Record. -/
def SIZE_EOCD : Nat := 22

/-- Observable I/O performed by the pipeline. -/
inductive Effect where
  | logInfo
  | headBucket
  | headObject
  | zipWrite
  | putObject
deriving DecidableEq

/-- The filesystem as seen by `build()`: the size of the file at the derived
archive path, if one exists. -/
structure ArchiveFS where
  archiveSize : Option Nat
deriving DecidableEq

/-- The instance-level lazy caches relevant to `build()`: the memoized value
of the `exists` cached property (`None` = not yet computed).  `build()`
clears the cached `code_sha256`/`md5_checksum` digests but never `exists`. -/
structure PkgCache where
  existsCache : Option Bool
deriving DecidableEq

/-- Failures of `build()`: `DeploymentPackageEmptyError` (carrying its
message, built from the archive file name), or the `OSError` from calling
`stat()` on a path that does not exist. -/
inductive BuildErr where
  | emptyPackage (msg : String)
  | statFailure
deriving DecidableEq

deriving instance DecidableEq for Except

/-- `DeploymentPackageEmptyError` message: `f"{archive_file.name} contains no files"`. -/
def emptyPackageMessage (p : Project) : String :=
  archiveFileName p ++ " contains no files"

/-- Outcome of one `build()` call: resulting filesystem, resulting instance
caches, I/O trace, and the returned path or raised error. -/
structure BuildResult where
  fs : ArchiveFS
  cache : PkgCache
  trace : List Effect
  result : Except BuildErr String
deriving DecidableEq

/-- The write phase of `build()` (steps after the skip check): log, open the
zip and write dependency entries, source entries and permission fixes
(`builtSize` is the size of the archive these writes produce), then raise
`DeploymentPackageEmptyError` if the final size is ≤ `SIZE_EOCD`. -/
def buildWritePhase (p : Project) (builtSize : Nat) (c : PkgCache) : BuildResult :=
  let fs' : ArchiveFS := ⟨some builtSize⟩
  if builtSize ≤ SIZE_EOCD then
    ⟨fs', c, [.logInfo, .zipWrite], .error (.emptyPackage (emptyPackageMessage p))⟩
  else
    ⟨fs', c, [.logInfo, .zipWrite], .ok (archiveFilePath p)⟩

/-- `DeploymentPackage.build`: skip (log and return the path) when `exists`
and the file size exceeds `SIZE_EOCD`; otherwise build.  `exists` is the lazy
cached property `archive_file.exists()`; the short-circuit `and` only calls
`stat()` when `exists` is true. -/
def DeploymentPackage.build (p : Project) (builtSize : Nat)
    (fs : ArchiveFS) (c : PkgCache) : BuildResult :=
  let ex : Bool := c.existsCache.getD fs.archiveSize.isSome
  let c' : PkgCache := ⟨some ex⟩
  if ex then
    match fs.archiveSize with
    | none => ⟨fs, c', [], .error .statFailure⟩
    | some sz =>
      if sz > SIZE_EOCD then ⟨fs, c', [.logInfo], .ok (archiveFilePath p)⟩
      else buildWritePhase p builtSize c'
  else buildWritePhase p builtSize c'

/-! ### Archive permission normalization
(`DeploymentPackage._build_fix_file_permissions`) -/

/-- `ZIPFILE_PERMISSION_MASK = (stat.S_IRWXU | stat.S_IRWXG | stat.S_IRWXO) << 16`. -/
def ZIPFILE_PERMISSION_MASK : Nat := (0o700 ||| 0o70 ||| 0o7) <<< 16

/-- `stat.S_IXUSR`: the owner-execute permission bit. -/
def S_IXUSR : Nat := 0o100

/-- A `zipfile.ZipInfo` entry: file name and external attributes. -/
structure ZipInfo where
  filename : String
  externalAttr : Nat
deriving DecidableEq

/-- Unix permission bits stored in an entry's external attributes. -/
def zipPerms (info : ZipInfo) : Nat :=
  (info.externalAttr &&& ZIPFILE_PERMISSION_MASK) >>> 16

/-- The loop body of `_build_fix_file_permissions` for one entry: read the
current permissions from the external attributes, force `0o755` when the
owner-execute bit is set and `0o644` otherwise.  Python `x & ~mask` on
non-negative ints clears the mask bits of `x`, written here with accelerated
operations as `x ^^^ (x &&& mask)`. -/
def fixFilePermissions (info : ZipInfo) : ZipInfo :=
  let currentPerms := (info.externalAttr &&& ZIPFILE_PERMISSION_MASK) >>> 16
  let requiredPerm := if currentPerms &&& S_IXUSR ≠ 0 then 0o755 else 0o644
  if currentPerms ≠ requiredPerm then
    ⟨info.filename,
      (info.externalAttr ^^^ (info.externalAttr &&& ZIPFILE_PERMISSION_MASK)) |||
        (requiredPerm <<< 16)⟩
  else info

/-- `_build_fix_file_permissions` applied to `archive_file.filelist`. -/
def buildFixFilePermissions (filelist : List ZipInfo) : List ZipInfo :=
  filelist.map fixFilePermissions

/-! ### Remote object (`DeploymentPackageS3Object`) -/

/-- The fields of a `HeadObject` response consumed by the code:
`head.get("DeleteMarker", False)` and `head.get("VersionId")`.  A `None` head
models the 404 path of `DeploymentPackageS3Object.head`. -/
structure HeadObjectResp where
  deleteMarker : Bool
  versionId : Option String
deriving DecidableEq

/-- `DeploymentPackageS3Object.exists`: the head response is present and does
not report a delete marker. -/
def s3Exists (head : Option HeadObjectResp) : Bool :=
  match head with
  | some h => !h.deleteMarker
  | none => false

/-- The two handles the factory can return. -/
inductive Handle where
  | s3Object
  | localPackage
deriving DecidableEq

/-- `DeploymentPackage.init`: return the S3-object-backed instance when the
probed object exists, else the local instance. -/
def DeploymentPackage.init (head : Option HeadObjectResp) : Handle :=
  if s3Exists head then .s3Object else .localPackage

/-- `DeploymentPackageS3Object.build`: log and return `archive_file`. -/
def DeploymentPackageS3Object.build (p : Project) : List Effect × String :=
  ([.logInfo], archiveFilePath p)

/-- `DeploymentPackageS3Object.upload`: log only. -/
def DeploymentPackageS3Object.upload : List Effect := [.logInfo]

/-- The four `META_TAGS` keys. -/
def META_TAG_CODE_SHA256 : String := "runway.cfngin:awslambda.code_sha256"

def META_TAG_MD5_CHECKSUM : String := "runway.cfngin:awslambda.md5_checksum"

def META_TAG_RUNTIME : String := "runway.cfngin:awslambda.runtime"

def META_TAG_SOURCE_HASH : String := "runway.cfngin:awslambda.source_code.hash"

/-- The four metadata fields of the package identity. -/
inductive MetaField where
  | codeSha256
  | md5Checksum
  | runtime
  | sourceCodeHash
deriving DecidableEq, Fintype

/-- Tag key for each metadata field (`DeploymentPackage.META_TAGS`). -/
def metaTagKey : MetaField → String
  | .codeSha256 => META_TAG_CODE_SHA256
  | .md5Checksum => META_TAG_MD5_CHECKSUM
  | .runtime => META_TAG_RUNTIME
  | .sourceCodeHash => META_TAG_SOURCE_HASH

/-- `RequiredTagNotFoundError(resource, tag_key)`. -/
inductive TagErr where
  | requiredTagNotFound (resource : String) (tagKey : String)
deriving DecidableEq

/-- The state backing a `DeploymentPackageS3Object`: its `object_tags` (from
`GetObjectTagging`), the project's recomputed source hash
(`project.source_code.md5_hash`), and the resource identifier used in error
messages (`bucket.format_bucket_path_uri(key=object_key)`). -/
structure S3ObjectView where
  tags : List (String × String)
  projectSrcHash : String
  resource : String
deriving DecidableEq

/-- Reading one metadata field on `DeploymentPackageS3Object`.  The
`code_sha256`, `md5_checksum` and `runtime` cached properties raise
`RequiredTagNotFoundError` when their tag is absent and return the tag value
otherwise.  The class defines no accessor that reads the source-hash tag: the
source hash it reports (used by the inherited `build_tag_set`) is
`self.project.source_code.md5_hash`, recomputed from the project. -/
def DeploymentPackageS3Object.readField (o : S3ObjectView) :
    MetaField → Except TagErr String
  | .codeSha256 =>
    match dget o.tags META_TAG_CODE_SHA256 with
    | none => .error (.requiredTagNotFound o.resource META_TAG_CODE_SHA256)
    | some v => .ok v
  | .md5Checksum =>
    match dget o.tags META_TAG_MD5_CHECKSUM with
    | none => .error (.requiredTagNotFound o.resource META_TAG_MD5_CHECKSUM)
    | some v => .ok v
  | .runtime =>
    match dget o.tags META_TAG_RUNTIME with
    | none => .error (.requiredTagNotFound o.resource META_TAG_RUNTIME)
    | some v => .ok v
  | .sourceCodeHash => .ok o.projectSrcHash

/-- `DeploymentPackageS3Object.object_version_id`: `None` when the head
response is absent or has no `VersionId`; the literal string `"null"` is
normalized to `None`. -/
def DeploymentPackageS3Object.object_version_id
    (head : Option HeadObjectResp) : Option String :=
  match head with
  | none => none
  | some h =>
    match h.versionId with
    | none => none
    | some v => if v = "null" then none else some v

/-- The field of a `PutObject` response consumed by the code. -/
structure PutObjectResp where
  versionId : Option String
deriving DecidableEq

/-- `DeploymentPackage.object_version_id` (local): `None` unless
`_put_object_response` is set and contains a `VersionId`. -/
def DeploymentPackage.object_version_id
    (putObjectResponse : Option PutObjectResp) : Option String :=
  match putObjectResponse with
  | none => none
  | some r => r.versionId

/-- Initial value of `DeploymentPackage._put_object_response`. -/
def DeploymentPackage.initialPutObjectResponse : Option PutObjectResp := none

/-- `DeploymentPackage.upload` records the `put_object` response in
`_put_object_response` (and invalidates the cached `object_version_id`). -/
def DeploymentPackage.recordPutObjectResponse (resp : PutObjectResp) :
    Option PutObjectResp := some resp

/-! ### Bucket resolution and the end-to-end flow -/

/-- What the S3 `HeadBucket` probe reports about the destination bucket
(`Bucket.forbidden` / `Bucket.not_found`). -/
inductive BucketProbe where
  | accessible
  | forbidden
  | notFound
deriving DecidableEq

/-- `BucketAccessDeniedError` / `BucketNotFoundError`, each carrying the
bucket name. -/
inductive BucketErr where
  | accessDenied (bucketName : String)
  | bucketNotFound (bucketName : String)
deriving DecidableEq

/-- Messages of the two bucket exceptions (`awslambda/exceptions.py`). -/
def bucketErrMessage : BucketErr → String
  | .accessDenied n => "access denied for bucket " ++ n
  | .bucketNotFound n => "bucket " ++ n ++ " not found"

/-- `DeploymentPackage.bucket`: raise `BucketAccessDeniedError` when access is
forbidden, `BucketNotFoundError` when the bucket does not exist. -/
def resolveBucket (name : String) (probe : BucketProbe) : Except BucketErr Unit :=
  match probe with
  | .forbidden => .error (.accessDenied name)
  | .notFound => .error (.bucketNotFound name)
  | .accessible => .ok ()

/-- Failures of the end-to-end flow. -/
inductive PipelineErr where
  | bucket (e : BucketErr)
  | build (e : BuildErr)
deriving DecidableEq

/-- The end-to-end flow `DeploymentPackage.init` followed by
`upload(build=True)`.  `init` probes the object with `head_object`, whose
client access first resolves `bucket` (raising there on denied/missing
buckets, before any other I/O).  The remote handle's `upload` only logs.  The
local handle's `upload` builds (fresh instance, so a fresh `exists` probe),
then resolves its own `bucket` and calls `put_object`. -/
def deployFlow (p : Project) (probe : BucketProbe) (head : Option HeadObjectResp)
    (builtSize : Nat) (fs : ArchiveFS) : List Effect × Except PipelineErr String :=
  match resolveBucket p.bucketName probe with
  | .error e => ([.headBucket], .error (.bucket e))
  | .ok _ =>
    match DeploymentPackage.init head with
    | .s3Object =>
      ([.headBucket, .headObject] ++ DeploymentPackageS3Object.upload,
        .ok (archiveFilePath p))
    | .localPackage =>
      let b := DeploymentPackage.build p builtSize fs ⟨none⟩
      match b.result with
      | .error e => ([.headBucket, .headObject] ++ b.trace, .error (.build e))
      | .ok path =>
        match resolveBucket p.bucketName probe with
        | .error e =>
          ([.headBucket, .headObject] ++ b.trace ++ [.headBucket],
            .error (.bucket e))
        | .ok _ =>
          ([.headBucket, .headObject] ++ b.trace ++
            [.headBucket, .logInfo, .putObject], .ok path)

/-! ### Python project type detection
(`awslambda/python_requirements/_python_project.py`) -/

/-- The files of a Python project root consulted by the detectors.
`pyprojectBuildRequires` is `none` when no `pyproject.toml` file exists, and
otherwise holds the `build-system.requires` list (empty when the key is
absent - both are falsy in `is_poetry_project`). -/
structure PythonProjectFS where
  pyprojectBuildRequires : Option (List String)
  hasPipfile : Bool
  hasPipfileLock : Bool
  hasRequirementsTxt : Bool
deriving DecidableEq

/-- Hook arguments controlling the detectors. -/
structure PythonHookArgs where
  use_poetry : Bool
  use_pipenv : Bool
deriving DecidableEq

/-- Which dependency-manager executables are on `$PATH`. -/
structure ToolAvail where
  poetryInPath : Bool
  pipenvInPath : Bool
deriving DecidableEq

/-- Python `str.startswith`, at the character-list level. -/
def pyStartsWith (s pre : String) : Bool := pre.toList.isPrefixOf s.toList

/-- `is_poetry_project`: `pyproject.toml` exists and some
`build-system.requires` entry starts with `"poetry"`. -/
def is_poetry_project (fs : PythonProjectFS) : Bool :=
  match fs.pyprojectBuildRequires with
  | none => false
  | some reqs => reqs.any (fun r => pyStartsWith r "poetry")

/-- `is_pipenv_project`: a `Pipfile` exists (a missing `Pipfile.lock` only
logs a warning). -/
def is_pipenv_project (fs : PythonProjectFS) : Bool := fs.hasPipfile

/-- `is_pip_project` with the default file name: `requirements.txt` exists. -/
def is_pip_project (fs : PythonProjectFS) : Bool := fs.hasRequirementsTxt

/-- The three project types. -/
inductive ProjectType where
  | pip
  | pipenv
  | poetry
deriving DecidableEq

/-- Warning logged when a poetry project is detected but poetry is disabled. -/
def poetryDisabledWarning : String :=
  "poetry project detected but use of poetry is explicitly disabled"

/-- Warning logged when a pipenv project is detected but pipenv is disabled. -/
def pipenvDisabledWarning : String :=
  "pipenv project detected but use of pipenv is explicitly disabled"

/-- `PythonProject.project_type` together with the warnings it logs: check
poetry first, then pipenv, falling back to pip; a detector that matches while
disabled logs a warning and falls through. -/
def PythonProject.project_type (fs : PythonProjectFS) (args : PythonHookArgs) :
    ProjectType × List String :=
  if is_poetry_project fs then
    if args.use_poetry then (.poetry, [])
    else
      if is_pipenv_project fs then
        if args.use_pipenv then (.pipenv, [poetryDisabledWarning])
        else (.pip, [poetryDisabledWarning, pipenvDisabledWarning])
      else (.pip, [poetryDisabledWarning])
  else
    if is_pipenv_project fs then
      if args.use_pipenv then (.pipenv, [])
      else (.pip, [pipenvDisabledWarning])
    else (.pip, [])

/-- Failures of `PythonProject.requirements_txt`: the `poetry`/`pipenv`
properties raise their tool-not-found errors, and a pip project with no
`requirements.txt` raises `PythonRequirementsNotFoundError`. -/
inductive ReqErr where
  | poetryNotFound
  | pipenvNotFound
  | requirementsNotFound (checkedPath : String)
deriving DecidableEq

/-- `PythonRequirementsNotFoundError` message, naming the checked path. -/
def requirementsNotFoundMessage (checkedPath : String) : String :=
  checkedPath ++ " does not contain a requirements file (e.g. requirements.txt, pyproject.toml)"

/-- `PythonProject.requirements_txt`: prioritize poetry, then pipenv (each
exporting to `tmp_requirements_txt`, raising when the tool is missing from
`$PATH`), else require `requirements.txt` in the project root. -/
def PythonProject.requirements_txt (fs : PythonProjectFS) (args : PythonHookArgs)
    (avail : ToolAvail) (projectRoot tmpRequirementsTxt : String) :
    Except ReqErr String :=
  match (PythonProject.project_type fs args).1 with
  | .poetry =>
    if avail.poetryInPath then .ok tmpRequirementsTxt else .error .poetryNotFound
  | .pipenv =>
    if avail.pipenvInPath then .ok tmpRequirementsTxt else .error .pipenvNotFound
  | .pip =>
    if is_pip_project fs then .ok (projectRoot ++ "/requirements.txt")
    else .error (.requirementsNotFound projectRoot)

/-! ### Docker command execution (`DockerDependencyInstaller.run_command`) -/

/-- One container-command execution environment: whether `container.start()`
succeeds, the `StatusCode` field of `container.wait()`, and the log lines the
container produces. -/
structure ContainerRun where
  startOk : Bool
  waitStatusCode : Option Nat
  logs : List String
deriving DecidableEq

/-- Docker API calls made by `run_command`. -/
inductive DockerEvent where
  | createContainer
  | startContainer
  | readLogs
  | waitContainer
  | removeContainer
deriving DecidableEq

/-- Failures of `run_command`: the exception propagating out of
`container.start()`, or the `RuntimeError` carrying a non-zero exit code. -/
inductive DockerErr where
  | startFailure
  | nonZeroExit (code : Nat)
deriving DecidableEq

/-- `run_command`: create the container; in a `try` block start it and stream
its logs; in the `finally` block read the exit code (`wait()` with
`StatusCode` defaulting to 0), always remove the container, and raise on a
non-zero exit code (replacing any in-flight exception). -/
def run_command (r : ContainerRun) : List DockerEvent × Except DockerErr (List String) :=
  let exitCode := r.waitStatusCode.getD 0
  if r.startOk then
    ([.createContainer, .startContainer, .readLogs, .waitContainer, .removeContainer],
      if exitCode ≠ 0 then .error (.nonZeroExit exitCode) else .ok r.logs)
  else
    ([.createContainer, .startContainer, .waitContainer, .removeContainer],
      if exitCode ≠ 0 then .error (.nonZeroExit exitCode) else .error .startFailure)

/-! ## Helper lemmas -/

theorem md5ReadChunks_foldl : ∀ (l acc : List Nat),
    (md5ReadChunks l).foldl (· ++ ·) acc = acc ++ l := by
  intro l
  induction l using md5ReadChunks.induct with
  | case1 => intro acc; rw [md5ReadChunks]; simp
  | case2 l h ih =>
    intro acc
    rw [md5ReadChunks]
    simp only [if_neg h, List.foldl_cons]
    rw [ih, List.append_assoc, List.take_append_drop]

theorem feedFile_eq (acc : List Nat) (e : SrcEntry) :
    feedFile acc e = acc ++ hashBlock (entryKey e) := by
  unfold feedFile hashBlock entryKey
  rw [md5ReadChunks_foldl]
  simp [List.append_assoc]

theorem lex_append_lt {α : Type} [LinearOrder α] (x u v : List α) :
    x ++ u < x ++ v ↔ u < v := by
  induction x with
  | nil => simp
  | cons c x ih =>
    constructor
    · intro h
      have h' : List.Lex (· < ·) (c :: (x ++ u)) (c :: (x ++ v)) := h
      exact ih.mp (List.Lex.cons_iff.mp h')
    · intro h
      have h' : List.Lex (· < ·) (c :: (x ++ u)) (c :: (x ++ v)) :=
        List.Lex.cons_iff.mpr (ih.mpr h)
      exact h'

theorem lex_append_le {α : Type} [LinearOrder α] (x u v : List α) :
    x ++ u ≤ x ++ v ↔ u ≤ v := by
  have h1 : (x ++ u ≤ x ++ v) ↔ ¬(x ++ v < x ++ u) := not_lt.symm
  have h2 : (u ≤ v) ↔ ¬(v < u) := not_lt.symm
  rw [h1, h2]
  exact not_congr (lex_append_lt x v u)

theorem pathLE_eq_relLE (t : SourceCode) : t.pathLE = relLE := by
  funext a b
  unfold SourceCode.pathLE relLE SourceCode.absParts
  exact decide_eq_decide.mpr (lex_append_le t.rootParts _ _)

theorem sorted_eq_specSortedByRel (t : SourceCode) :
    t.sorted = specSortedByRel t := by
  unfold SourceCode.sorted specSortedByRel
  rw [pathLE_eq_relLE]

theorem foldl_feedFile (l : List SrcEntry) :
    ∀ init : List Nat,
      l.foldl feedFile init = init ++ ((l.map entryKey).map hashBlock).flatten := by
  induction l with
  | nil => intro init; simp
  | cons e l ih =>
    intro init
    rw [List.foldl_cons, ih, feedFile_eq]
    simp [List.append_assoc]

theorem foldl_specBlock (l : List SrcEntry) :
    ∀ init : List Nat,
      l.foldl
        (fun acc e => acc ++ strBytes (joinParts e.relParts) ++ [0] ++ e.content ++ [0])
        init
        = init ++ ((l.map entryKey).map hashBlock).flatten := by
  induction l with
  | nil => intro init; simp
  | cons e l ih =>
    intro init
    rw [List.foldl_cons, ih]
    simp [hashBlock, entryKey, List.append_assoc]

theorem md5Stream_eq_keys (t : SourceCode) :
    t.md5Stream = (((specSortedByRel t).map entryKey).map hashBlock).flatten := by
  unfold SourceCode.md5Stream
  rw [sorted_eq_specSortedByRel, foldl_feedFile]
  simp

theorem specHashStream_eq_keys (t : SourceCode) :
    specHashStream t = (((specSortedByRel t).map entryKey).map hashBlock).flatten := by
  unfold specHashStream
  rw [foldl_specBlock]
  simp

theorem sorted_key_perm_eq :
    ∀ (l₁ l₂ : List (List String × List Nat)), l₁.Perm l₂ →
      l₁.Pairwise (fun a b => a.1 ≤ b.1) → l₂.Pairwise (fun a b => a.1 ≤ b.1) →
      (l₁.map Prod.fst).Nodup → l₁ = l₂ := by
  intro l₁
  induction l₁ with
  | nil => intro l₂ hp _ _ _; exact (hp.nil_eq).symm ▸ rfl
  | cons a as ih =>
    intro l₂ hp hs₁ hs₂ hnd
    rw [List.map_cons, List.nodup_cons] at hnd
    cases l₂ with
    | nil =>
      have := hp.length_eq
      simp at this
    | cons b bs =>
      have ha : a ∈ b :: bs := hp.mem_iff.mp (List.mem_cons_self a as)
      have hab : a = b := by
        rcases List.mem_cons.mp ha with h | h
        · exact h
        · have hba : b ∈ a :: as := hp.symm.mem_iff.mp (List.mem_cons_self b bs)
          rcases List.mem_cons.mp hba with h2 | h2
          · exact h2.symm
          · have hle1 : a.1 ≤ b.1 := (List.pairwise_cons.mp hs₁).1 b h2
            have hle2 : b.1 ≤ a.1 := (List.pairwise_cons.mp hs₂).1 a h
            have hfst : a.1 = b.1 := le_antisymm hle1 hle2
            exfalso
            exact hnd.1 (hfst ▸ List.mem_map_of_mem Prod.fst h2)
      subst hab
      have htail := hp.cons_inv
      rw [ih bs htail (List.pairwise_cons.mp hs₁).2 (List.pairwise_cons.mp hs₂).2 hnd.2]

theorem relLE_trans : ∀ a b c : SrcEntry,
    relLE a b = true → relLE b c = true → relLE a c = true := by
  intro a b c hab hbc
  unfold relLE at *
  simp only [decide_eq_true_eq] at *
  exact le_trans hab hbc

theorem relLE_total : ∀ a b : SrcEntry, (relLE a b || relLE b a) = true := by
  intro a b
  unfold relLE
  rcases le_total a.relParts b.relParts with h | h <;> simp [h]

theorem specSorted_keys_pairwise (t : SourceCode) :
    ((specSortedByRel t).map entryKey).Pairwise (fun a b => a.1 ≤ b.1) := by
  rw [List.pairwise_map]
  have h := List.sorted_mergeSort relLE_trans relLE_total t.iter
  exact h.imp (fun hab => by
    simpa [relLE, decide_eq_true_eq] using hab)

theorem specSorted_keys_perm (t : SourceCode) :
    ((specSortedByRel t).map entryKey).Perm (t.iter.map entryKey) :=
  (List.mergeSort_perm t.iter relLE).map entryKey

theorem specSorted_keys_nodup (t : SourceCode)
    (h : (t.iter.map SrcEntry.relParts).Nodup) :
    (((specSortedByRel t).map entryKey).map Prod.fst).Nodup := by
  have hcomp : ((specSortedByRel t).map entryKey).map Prod.fst
      = (specSortedByRel t).map SrcEntry.relParts := by
    rw [List.map_map]; rfl
  rw [hcomp]
  exact (((List.mergeSort_perm t.iter relLE).map SrcEntry.relParts).nodup_iff).mpr h

theorem md5Stream_deterministic (t₁ t₂ : SourceCode)
    (h₁ : (t₁.iter.map SrcEntry.relParts).Nodup)
    (hperm : (t₁.iter.map entryKey).Perm (t₂.iter.map entryKey)) :
    t₁.md5Stream = t₂.md5Stream := by
  rw [md5Stream_eq_keys, md5Stream_eq_keys]
  have hK : (specSortedByRel t₁).map entryKey = (specSortedByRel t₂).map entryKey := by
    apply sorted_key_perm_eq
    · exact ((specSorted_keys_perm t₁).trans hperm).trans (specSorted_keys_perm t₂).symm
    · exact specSorted_keys_pairwise t₁
    · exact specSorted_keys_pairwise t₂
    · exact specSorted_keys_nodup t₁ h₁
  rw [hK]

/-! ## Claims -/

/-- C1: the content hash equals the digest of the stream obtained by
enumerating all non-directory descendants of the root that do not match the
ignore filter, sorting them by path relative to the root, and feeding, for
each file in that order, the relative path, a NUL, the raw bytes and a
trailing NUL into one running digest; consequently any two trees with
identical relative-path/content sets (as permutation-equal filtered entry
sets) produce the identical hash regardless of filesystem enumeration
order.  Paths are compared the way `pathlib` compares `Path` objects: by
their component lists. -/
theorem c1_content_hash (digest : List Nat → String) (t₁ t₂ : SourceCode)
    (h₁ : (t₁.iter.map SrcEntry.relParts).Nodup)
    (hperm : (t₁.iter.map entryKey).Perm (t₂.iter.map entryKey)) :
    SourceCode.md5_hash digest t₁ = digest (specHashStream t₁) ∧
    SourceCode.md5_hash digest t₁ = SourceCode.md5_hash digest t₂ := by
  constructor
  · unfold SourceCode.md5_hash
    rw [md5Stream_eq_keys, specHashStream_eq_keys]
  · unfold SourceCode.md5_hash
    rw [md5Stream_deterministic t₁ t₂ h₁ hperm]

/-- Witness for C1 at two concrete trees that enumerate the same accepted
files in different orders, under different roots and filters; the file set
includes the pair `a/b` and `a.c`, whose component-wise path order differs
from the joined-string order. -/
theorem c1_content_hash_witness :
    (((SourceCode.mk ["/", "tmp", "src"]
        [⟨["a.c"], false, [1]⟩, ⟨["a"], true, []⟩, ⟨["a", "b"], false, [2, 3]⟩,
          ⟨["skip.pyc"], false, [9]⟩]
        (fun ps => ps == ["/", "tmp", "src", "skip.pyc"])).iter.map
        SrcEntry.relParts).Nodup ∧
      (((SourceCode.mk ["/", "tmp", "src"]
        [⟨["a.c"], false, [1]⟩, ⟨["a"], true, []⟩, ⟨["a", "b"], false, [2, 3]⟩,
          ⟨["skip.pyc"], false, [9]⟩]
        (fun ps => ps == ["/", "tmp", "src", "skip.pyc"])).iter.map entryKey).Perm
        (((SourceCode.mk ["/", "home", "x"]
          [⟨["a", "b"], false, [2, 3]⟩, ⟨["a.c"], false, [1]⟩]
          (fun _ => false)).iter.map entryKey)))) ∧
    (SourceCode.md5_hash (fun l => toString l)
        (SourceCode.mk ["/", "tmp", "src"]
          [⟨["a.c"], false, [1]⟩, ⟨["a"], true, []⟩, ⟨["a", "b"], false, [2, 3]⟩,
            ⟨["skip.pyc"], false, [9]⟩]
          (fun ps => ps == ["/", "tmp", "src", "skip.pyc"])) =
      (fun l => toString l) (specHashStream
        (SourceCode.mk ["/", "tmp", "src"]
          [⟨["a.c"], false, [1]⟩, ⟨["a"], true, []⟩, ⟨["a", "b"], false, [2, 3]⟩,
            ⟨["skip.pyc"], false, [9]⟩]
          (fun ps => ps == ["/", "tmp", "src", "skip.pyc"]))) ∧
      SourceCode.md5_hash (fun l => toString l)
        (SourceCode.mk ["/", "tmp", "src"]
          [⟨["a.c"], false, [1]⟩, ⟨["a"], true, []⟩, ⟨["a", "b"], false, [2, 3]⟩,
            ⟨["skip.pyc"], false, [9]⟩]
          (fun ps => ps == ["/", "tmp", "src", "skip.pyc"])) =
      SourceCode.md5_hash (fun l => toString l)
        (SourceCode.mk ["/", "home", "x"]
          [⟨["a", "b"], false, [2, 3]⟩, ⟨["a.c"], false, [1]⟩]
          (fun _ => false))) :=
  ⟨⟨by decide, by decide⟩,
    c1_content_hash (fun l => toString l) _ _ (by decide) (by decide)⟩

theorem perm_mask_extract (a r : Nat) (hr : r < 2 ^ 9) :
    (((a ^^^ (a &&& ZIPFILE_PERMISSION_MASK)) ||| r <<< 16) &&&
        ZIPFILE_PERMISSION_MASK) >>> 16 = r := by
  have hmask : ZIPFILE_PERMISSION_MASK = (2 ^ 9 - 1) <<< 16 := by decide
  apply Nat.eq_of_testBit_eq
  intro i
  rw [Nat.testBit_shiftRight, hmask, Nat.testBit_land, Nat.testBit_lor,
    Nat.testBit_xor, Nat.testBit_land, Nat.testBit_shiftLeft,
    Nat.testBit_shiftLeft, Nat.testBit_two_pow_sub_one]
  by_cases h : i < 9
  · simp [Nat.add_sub_cancel_left, Nat.le_add_right, h]
  · have hri : r.testBit i = false :=
      Nat.testBit_lt_two_pow
        (lt_of_lt_of_le hr (Nat.pow_le_pow_right (by decide) (le_of_not_lt h)))
    simp [Nat.add_sub_cancel_left, Nat.le_add_right, h, hri]

theorem fixFilePermissions_filename (info : ZipInfo) :
    (fixFilePermissions info).filename = info.filename := by
  unfold fixFilePermissions
  dsimp only
  split <;> split <;> rfl

theorem fixFilePermissions_perms (info : ZipInfo) :
    zipPerms (fixFilePermissions info) =
      if zipPerms info &&& S_IXUSR ≠ 0 then 0o755 else 0o644 := by
  unfold fixFilePermissions zipPerms
  dsimp only
  rcases Decidable.em
      (((info.externalAttr &&& ZIPFILE_PERMISSION_MASK) >>> 16) &&& S_IXUSR ≠ 0) with
    hx | hx
  · simp only [if_pos hx]
    split
    · exact perm_mask_extract info.externalAttr 0o755 (by decide)
    · next heq =>
      rw [not_not] at heq
      exact heq
  · simp only [if_neg hx]
    split
    · exact perm_mask_extract info.externalAttr 0o644 (by decide)
    · next heq =>
      rw [not_not] at heq
      exact heq

/-- C3: after the permission-fix pass every entry of the archive has unix
permission bits (read back from its external file attributes) equal to
exactly `0o755` when the entry's owner-execute bit was set at write time and
exactly `0o644` otherwise, never any other mode. -/
theorem c3_permission_normalization (filelist : List ZipInfo) (e : ZipInfo)
    (he : e ∈ buildFixFilePermissions filelist) :
    (zipPerms e = 0o755 ∨ zipPerms e = 0o644) ∧
    ∃ o ∈ filelist, e.filename = o.filename ∧
      zipPerms e = (if zipPerms o &&& S_IXUSR ≠ 0 then 0o755 else 0o644) := by
  obtain ⟨o, ho, rfl⟩ := List.mem_map.mp he
  refine ⟨?_, o, ho, fixFilePermissions_filename o, fixFilePermissions_perms o⟩
  rw [fixFilePermissions_perms o]
  split
  · exact Or.inl rfl
  · exact Or.inr rfl

/-- Witness for C3 at a concrete two-entry archive (one executable entry with
mode 741, one non-executable entry with mode 600). -/
theorem c3_permission_normalization_witness :
    (fixFilePermissions ⟨"run.sh", 0o741 <<< 16⟩ ∈
      buildFixFilePermissions
        [⟨"run.sh", 0o741 <<< 16⟩, ⟨"app.py", 0o600 <<< 16⟩]) ∧
    ((zipPerms (fixFilePermissions ⟨"run.sh", 0o741 <<< 16⟩) = 0o755 ∨
        zipPerms (fixFilePermissions ⟨"run.sh", 0o741 <<< 16⟩) = 0o644) ∧
      ∃ o ∈ [ZipInfo.mk "run.sh" (0o741 <<< 16), ⟨"app.py", 0o600 <<< 16⟩],
        (fixFilePermissions ⟨"run.sh", 0o741 <<< 16⟩).filename = o.filename ∧
        zipPerms (fixFilePermissions ⟨"run.sh", 0o741 <<< 16⟩) =
          (if zipPerms o &&& S_IXUSR ≠ 0 then 0o755 else 0o644)) :=
  ⟨by decide, c3_permission_normalization _ _ (by decide)⟩

/-- C2 (counterexample): starting from no archive and a fresh instance, the
first `build()` succeeds, yet a second `build()` on the same instance (using
the filesystem and instance caches the first call left behind) opens the zip
and writes again: the `exists` cached property was memoized as `False` before
the first write and `build()` never invalidates it.  This contradicts the
claim that a second `build()` after a successful first call performs no
second write. -/
theorem c2_counterexample :
    (DeploymentPackage.build ⟨"src", "hash", "build", "bkt", none, "python3.9"⟩
        100 ⟨none⟩ ⟨none⟩).result =
      .ok (archiveFilePath ⟨"src", "hash", "build", "bkt", none, "python3.9"⟩) ∧
    Effect.zipWrite ∈
      (DeploymentPackage.build ⟨"src", "hash", "build", "bkt", none, "python3.9"⟩
        100
        (DeploymentPackage.build ⟨"src", "hash", "build", "bkt", none, "python3.9"⟩
          100 ⟨none⟩ ⟨none⟩).fs
        (DeploymentPackage.build ⟨"src", "hash", "build", "bkt", none, "python3.9"⟩
          100 ⟨none⟩ ⟨none⟩).cache).trace := by
  constructor
  · decide
  · decide

/-- C2 (amended): if `build()` computes a fresh existence probe (the `exists`
cached property not yet memoized) and a valid archive (size > 22) exists at
the derived path, `build()` writes nothing — it only logs — and returns that
archive path, leaving the filesystem unchanged.  Consequently a second
`build()` through a freshly initialized package after a successful first
build performs no write and returns the same path.  On the same instance,
however, a second `build()` after a first call that actually wrote rewrites
the archive (the memoized existence flag is stale), still returning the same
path. -/
theorem c2_build_skip (p : Project) (builtSize sz : Nat)
    (hsz : sz > SIZE_EOCD) (hbuilt : builtSize > SIZE_EOCD) :
    (DeploymentPackage.build p builtSize ⟨some sz⟩ ⟨none⟩ =
      ⟨⟨some sz⟩, ⟨some true⟩, [.logInfo], .ok (archiveFilePath p)⟩) ∧
    ((DeploymentPackage.build p builtSize ⟨none⟩ ⟨none⟩).result =
      .ok (archiveFilePath p)) ∧
    (DeploymentPackage.build p builtSize
        (DeploymentPackage.build p builtSize ⟨none⟩ ⟨none⟩).fs ⟨none⟩ =
      ⟨(DeploymentPackage.build p builtSize ⟨none⟩ ⟨none⟩).fs, ⟨some true⟩,
        [.logInfo], .ok (archiveFilePath p)⟩) ∧
    ((DeploymentPackage.build p builtSize
        (DeploymentPackage.build p builtSize ⟨none⟩ ⟨none⟩).fs
        (DeploymentPackage.build p builtSize ⟨none⟩ ⟨none⟩).cache).trace =
      [.logInfo, .zipWrite] ∧
      (DeploymentPackage.build p builtSize
        (DeploymentPackage.build p builtSize ⟨none⟩ ⟨none⟩).fs
        (DeploymentPackage.build p builtSize ⟨none⟩ ⟨none⟩).cache).result =
      .ok (archiveFilePath p)) := by
  have hb : ¬ builtSize ≤ SIZE_EOCD := not_le.mpr hbuilt
  refine ⟨?_, ?_, ?_, ?_, ?_⟩ <;>
    simp [DeploymentPackage.build, buildWritePhase, Option.getD, hsz, hb,
      not_le.mpr hsz]

/-- Witness for C2 (amended) at concrete sizes 23 and 100. -/
theorem c2_build_skip_witness :
    (23 > SIZE_EOCD ∧ 100 > SIZE_EOCD) ∧
    (DeploymentPackage.build ⟨"s", "h", "b", "k", none, "r"⟩ 100 ⟨some 23⟩ ⟨none⟩ =
      ⟨⟨some 23⟩, ⟨some true⟩, [.logInfo],
        .ok (archiveFilePath ⟨"s", "h", "b", "k", none, "r"⟩)⟩) :=
  ⟨⟨by decide, by decide⟩,
    (c2_build_skip ⟨"s", "h", "b", "k", none, "r"⟩ 100 23 (by decide) (by decide)).1⟩

/-- C5: whenever `build()` actually writes the archive (the skip branch was
not taken) and the written archive's size is at most the 22-byte empty-zip
threshold, `build()` raises `DeploymentPackageEmptyError` — whose message
names the archive file — and does not return success; in particular this is
what happens on a fresh invocation with no pre-existing archive when every
source file was excluded. -/
theorem c5_empty_package (p : Project) (builtSize : Nat)
    (fs : ArchiveFS) (c : PkgCache) (hsize : builtSize ≤ SIZE_EOCD) :
    (Effect.zipWrite ∈ (DeploymentPackage.build p builtSize fs c).trace →
      (DeploymentPackage.build p builtSize fs c).result =
        .error (.emptyPackage (emptyPackageMessage p))) ∧
    (fs.archiveSize = none → c.existsCache = none →
      Effect.zipWrite ∈ (DeploymentPackage.build p builtSize fs c).trace ∧
      (DeploymentPackage.build p builtSize fs c).result =
        .error (.emptyPackage (emptyPackageMessage p))) ∧
    emptyPackageMessage p = archiveFileName p ++ " contains no files" := by
  refine ⟨?_, ?_, rfl⟩
  · intro hw
    unfold DeploymentPackage.build at hw ⊢
    dsimp only at hw ⊢
    by_cases hex : c.existsCache.getD fs.archiveSize.isSome = true
    · rw [if_pos hex] at hw ⊢
      cases hfs : fs.archiveSize with
      | none =>
        rw [hfs] at hw
        simp at hw
      | some sz =>
        rw [hfs] at hw
        dsimp only at hw ⊢
        by_cases hgt : sz > SIZE_EOCD
        · rw [if_pos hgt] at hw
          simp at hw
        · rw [if_neg hgt]
          simp [buildWritePhase, hsize]
    · rw [if_neg hex]
      simp [buildWritePhase, hsize]
  · intro hfs hc
    unfold DeploymentPackage.build
    simp [hfs, hc, buildWritePhase, hsize]

/-- Witness for C5: a fresh invocation over an empty source set produces a
zero-entry archive (size 22) and fails with the empty-package error. -/
theorem c5_empty_package_witness :
    (22 ≤ SIZE_EOCD) ∧
    (Effect.zipWrite ∈
      (DeploymentPackage.build ⟨"s", "h", "b", "k", none, "r"⟩ 22 ⟨none⟩ ⟨none⟩).trace ∧
    (DeploymentPackage.build ⟨"s", "h", "b", "k", none, "r"⟩ 22 ⟨none⟩ ⟨none⟩).result =
      .error (.emptyPackage (emptyPackageMessage ⟨"s", "h", "b", "k", none, "r"⟩))) :=
  ⟨by decide,
    (c5_empty_package ⟨"s", "h", "b", "k", none, "r"⟩ 22 ⟨none⟩ ⟨none⟩
      (by decide)).2.1 rfl rfl⟩

/-- C4: the factory returns the remote-backed handle exactly when the head
probe reports the object exists and does not report a delete marker, and the
local-backed handle otherwise; on the remote-backed handle, `build()` and
`upload()` perform no archive write and no upload — they only log — and
`build()` returns the existing archive identity. -/
theorem c4_factory_remote :
    (∀ head : Option HeadObjectResp,
      (DeploymentPackage.init head = .s3Object ↔
        ∃ h, head = some h ∧ h.deleteMarker = false) ∧
      (DeploymentPackage.init head = .localPackage ↔
        ¬∃ h, head = some h ∧ h.deleteMarker = false)) ∧
    (∀ p : Project,
      DeploymentPackageS3Object.build p = ([.logInfo], archiveFilePath p) ∧
      Effect.zipWrite ∉ (DeploymentPackageS3Object.build p).1 ∧
      Effect.putObject ∉ (DeploymentPackageS3Object.build p).1) ∧
    (DeploymentPackageS3Object.upload = [.logInfo] ∧
      Effect.zipWrite ∉ DeploymentPackageS3Object.upload ∧
      Effect.putObject ∉ DeploymentPackageS3Object.upload) := by
  refine ⟨?_, ?_, ?_, ?_, ?_⟩
  · intro head
    constructor
    · unfold DeploymentPackage.init s3Exists
      cases head with
      | none => simp
      | some h =>
        cases hdm : h.deleteMarker <;> simp [hdm]
    · unfold DeploymentPackage.init s3Exists
      cases head with
      | none => simp
      | some h =>
        cases hdm : h.deleteMarker <;> simp [hdm]
  · intro p
    refine ⟨rfl, ?_, ?_⟩ <;> simp [DeploymentPackageS3Object.build]
  · rfl
  · decide
  · decide

/-- C6 (counterexample): on a remote object whose tag set contains the code
digest, storage digest and runtime tags but not the source-hash tag, reading
the source-hash field of the remote handle does not fail — the class has no
accessor that reads that tag; the value it reports is the project's
recomputed source hash.  So it is not the case that, for each of the four
metadata tags, the corresponding field read fails exactly when the tag is
absent. -/
theorem c6_counterexample :
    ¬ (∀ f : MetaField,
      (DeploymentPackageS3Object.readField
        ⟨[(META_TAG_CODE_SHA256, "digest-a"), (META_TAG_MD5_CHECKSUM, "digest-b"),
          (META_TAG_RUNTIME, "python3.9")], "abc123", "s3://bkt/key"⟩ f).isOk
          = false ↔
      dget [(META_TAG_CODE_SHA256, "digest-a"), (META_TAG_MD5_CHECKSUM, "digest-b"),
        (META_TAG_RUNTIME, "python3.9")] (metaTagKey f) = none) := by
  intro h
  have := (h .sourceCodeHash).mpr (by decide)
  exact absurd this (by decide)

/-- C6 (amended): on the remote-backed package, each of the three tag-backed
fields — code digest, storage digest and runtime — fails with
`RequiredTagNotFoundError` naming the resource and the missing tag key
exactly when its tag is absent from the object's tag set, and returns the tag
value verbatim when the tag is present; the fourth metadata item, the source
hash, has no tag-reading accessor on the remote handle and always reads the
project's recomputed hash. -/
theorem c6_tag_accessors (o : S3ObjectView) :
    ((DeploymentPackageS3Object.readField o .codeSha256 =
        .error (.requiredTagNotFound o.resource META_TAG_CODE_SHA256)) ↔
      dget o.tags META_TAG_CODE_SHA256 = none) ∧
    (∀ v, dget o.tags META_TAG_CODE_SHA256 = some v →
      DeploymentPackageS3Object.readField o .codeSha256 = .ok v) ∧
    ((DeploymentPackageS3Object.readField o .md5Checksum =
        .error (.requiredTagNotFound o.resource META_TAG_MD5_CHECKSUM)) ↔
      dget o.tags META_TAG_MD5_CHECKSUM = none) ∧
    (∀ v, dget o.tags META_TAG_MD5_CHECKSUM = some v →
      DeploymentPackageS3Object.readField o .md5Checksum = .ok v) ∧
    ((DeploymentPackageS3Object.readField o .runtime =
        .error (.requiredTagNotFound o.resource META_TAG_RUNTIME)) ↔
      dget o.tags META_TAG_RUNTIME = none) ∧
    (∀ v, dget o.tags META_TAG_RUNTIME = some v →
      DeploymentPackageS3Object.readField o .runtime = .ok v) ∧
    DeploymentPackageS3Object.readField o .sourceCodeHash = .ok o.projectSrcHash := by
  refine ⟨?_, ?_, ?_, ?_, ?_, ?_, rfl⟩ <;>
    unfold DeploymentPackageS3Object.readField
  · cases h : dget o.tags META_TAG_CODE_SHA256 <;> simp [h]
  · intro v h
    simp [h]
  · cases h : dget o.tags META_TAG_MD5_CHECKSUM <;> simp [h]
  · intro v h
    simp [h]
  · cases h : dget o.tags META_TAG_RUNTIME <;> simp [h]
  · intro v h
    simp [h]

/-- Witness for C6 (amended) at a concrete tag set missing the runtime tag
but holding the code-digest tag. -/
theorem c6_tag_accessors_witness :
    (dget [(META_TAG_CODE_SHA256, "digest-a")] META_TAG_CODE_SHA256 =
      some "digest-a") ∧
    (DeploymentPackageS3Object.readField
        ⟨[(META_TAG_CODE_SHA256, "digest-a")], "hash", "s3://bkt/key"⟩ .codeSha256 =
      .ok "digest-a") ∧
    (DeploymentPackageS3Object.readField
        ⟨[(META_TAG_CODE_SHA256, "digest-a")], "hash", "s3://bkt/key"⟩ .runtime =
      .error (.requiredTagNotFound "s3://bkt/key" META_TAG_RUNTIME)) :=
  ⟨by decide,
    (c6_tag_accessors ⟨[(META_TAG_CODE_SHA256, "digest-a")], "hash", "s3://bkt/key"⟩).2.1
      "digest-a" (by decide),
    (c6_tag_accessors ⟨[(META_TAG_CODE_SHA256, "digest-a")], "hash", "s3://bkt/key"⟩).2.2.2.2.1.mpr
      (by decide)⟩

/-- C7: resolving the destination bucket raises two distinct failures —
access denied when access is forbidden and bucket-not-found when the bucket
does not exist — and in the end-to-end flow each is raised before any
`put_object` upload is attempted; when the bucket does not exist the flow
fails during factory initialization, before any build or upload I/O (the
trace holds only the bucket probe itself). -/
theorem c7_bucket_failures (p : Project) :
    (resolveBucket p.bucketName .forbidden = .error (.accessDenied p.bucketName)) ∧
    (resolveBucket p.bucketName .notFound = .error (.bucketNotFound p.bucketName)) ∧
    (BucketErr.accessDenied p.bucketName ≠ BucketErr.bucketNotFound p.bucketName) ∧
    (∀ (probe : BucketProbe) (head : Option HeadObjectResp) (builtSize : Nat)
        (fs : ArchiveFS) (e : BucketErr),
      (deployFlow p probe head builtSize fs).2 = .error (.bucket e) →
        Effect.putObject ∉ (deployFlow p probe head builtSize fs).1) ∧
    (∀ (head : Option HeadObjectResp) (builtSize : Nat) (fs : ArchiveFS),
      deployFlow p .notFound head builtSize fs =
        ([.headBucket], .error (.bucket (.bucketNotFound p.bucketName)))) := by
  refine ⟨rfl, rfl, by simp, ?_, ?_⟩
  · intro probe head builtSize fs e herr
    cases probe with
    | forbidden => simp [deployFlow, resolveBucket]
    | notFound => simp [deployFlow, resolveBucket]
    | accessible =>
      unfold deployFlow resolveBucket at herr ⊢
      dsimp only at herr ⊢
      cases hinit : DeploymentPackage.init head with
      | s3Object =>
        rw [hinit] at herr
        simp [DeploymentPackageS3Object.upload] at herr
      | localPackage =>
        rw [hinit] at herr
        dsimp only at herr ⊢
        cases hres : (DeploymentPackage.build p builtSize fs ⟨none⟩).result with
        | error eb =>
          rw [hres] at herr
          simp at herr
        | ok path =>
          rw [hres] at herr
          simp at herr
  · intro head builtSize fs
    simp [deployFlow, resolveBucket]

/-- Witness for C7: with an accessible bucket, an absent remote object and a
successful build, the flow ends in `put_object`; with a missing bucket it
fails with bucket-not-found before any build/upload I/O. -/
theorem c7_bucket_failures_witness :
    (Effect.putObject ∉
      (deployFlow ⟨"s", "h", "b", "k", none, "r"⟩ .notFound none 100 ⟨none⟩).1) ∧
    (deployFlow ⟨"s", "h", "b", "k", none, "r"⟩ .notFound none 100 ⟨none⟩ =
      ([.headBucket], .error (.bucket (.bucketNotFound "k")))) :=
  ⟨(c7_bucket_failures ⟨"s", "h", "b", "k", none, "r"⟩).2.2.2.1 .notFound none 100
      ⟨none⟩ (.bucketNotFound "k") (by decide),
    (c7_bucket_failures ⟨"s", "h", "b", "k", none, "r"⟩).2.2.2.2 none 100 ⟨none⟩⟩

/-- C8: project-type detection checks poetry first, then pipenv, then falls
back to pip; a detector that matches while its format is disabled logs a
warning and falls through to the next format; and when neither lock-file
format is used, if no `requirements.txt` exists in the project root,
`requirements_txt` fails with the no-requirements-found condition naming the
checked project path. -/
theorem c8_detection_order (fs : PythonProjectFS) (args : PythonHookArgs)
    (avail : ToolAvail) (projectRoot tmpReq : String) :
    (is_poetry_project fs = true → args.use_poetry = true →
      PythonProject.project_type fs args = (.poetry, [])) ∧
    (is_poetry_project fs = true → args.use_poetry = false →
      (PythonProject.project_type fs args).1 ≠ .poetry ∧
      poetryDisabledWarning ∈ (PythonProject.project_type fs args).2) ∧
    (is_pipenv_project fs = true → args.use_pipenv = true →
      (is_poetry_project fs = false ∨ args.use_poetry = false) →
      (PythonProject.project_type fs args).1 = .pipenv) ∧
    (is_pipenv_project fs = true → args.use_pipenv = false →
      (is_poetry_project fs = false ∨ args.use_poetry = false) →
      (PythonProject.project_type fs args).1 = .pip ∧
      pipenvDisabledWarning ∈ (PythonProject.project_type fs args).2) ∧
    ((is_poetry_project fs = false ∨ args.use_poetry = false) →
      (is_pipenv_project fs = false ∨ args.use_pipenv = false) →
      (PythonProject.project_type fs args).1 = .pip) ∧
    ((PythonProject.project_type fs args).1 = .pip →
      is_pip_project fs = false →
      PythonProject.requirements_txt fs args avail projectRoot tmpReq =
        .error (.requirementsNotFound projectRoot)) := by
  cases hpo : is_poetry_project fs <;> cases hupo : args.use_poetry <;>
    cases hpe : is_pipenv_project fs <;> cases hupe : args.use_pipenv <;>
    refine ⟨?_, ?_, ?_, ?_, ?_, ?_⟩ <;>
    simp [PythonProject.project_type, PythonProject.requirements_txt, hpo, hupo,
      hpe, hupe]

/-- Witness for C8: a project carrying a poetry marker with poetry disabled
and nothing else falls through with a warning and fails with the
no-requirements-found condition. -/
theorem c8_detection_order_witness :
    ((PythonProject.project_type ⟨some ["poetry-core"], false, false, false⟩
        ⟨false, true⟩).1 ≠ .poetry ∧
      poetryDisabledWarning ∈
        (PythonProject.project_type ⟨some ["poetry-core"], false, false, false⟩
          ⟨false, true⟩).2) ∧
    PythonProject.requirements_txt ⟨some ["poetry-core"], false, false, false⟩
        ⟨false, true⟩ ⟨true, true⟩ "/proj" "/tmp/req.txt" =
      .error (.requirementsNotFound "/proj") :=
  ⟨(c8_detection_order ⟨some ["poetry-core"], false, false, false⟩ ⟨false, true⟩
      ⟨true, true⟩ "/proj" "/tmp/req.txt").2.1 (by decide) (by decide),
    (c8_detection_order ⟨some ["poetry-core"], false, false, false⟩ ⟨false, true⟩
      ⟨true, true⟩ "/proj" "/tmp/req.txt").2.2.2.2.2 (by decide) (by decide)⟩

/-- C9: for every command the container installer runs, the container is
removed in the cleanup step regardless of outcome (success, non-zero exit, or
an exception during start), and a non-zero container exit status raises a
failure carrying the exit code. -/
theorem c9_container_cleanup (r : ContainerRun) :
    DockerEvent.removeContainer ∈ (run_command r).1 ∧
    (r.waitStatusCode.getD 0 ≠ 0 →
      (run_command r).2 = .error (.nonZeroExit (r.waitStatusCode.getD 0))) := by
  unfold run_command
  cases hs : r.startOk <;>
    by_cases hz : r.waitStatusCode.getD 0 ≠ 0 <;> simp [hz]

/-- Witness for C9: a command whose `start()` raises and whose container exits
with status 2 is still removed, and the failure carries exit code 2. -/
theorem c9_container_cleanup_witness :
    DockerEvent.removeContainer ∈ (run_command ⟨false, some 2, []⟩).1 ∧
    (run_command ⟨false, some 2, []⟩).2 = .error (.nonZeroExit 2) :=
  ⟨(c9_container_cleanup ⟨false, some 2, []⟩).1,
    (c9_container_cleanup ⟨false, some 2, []⟩).2 (by decide)⟩

/-- C10: the object version identifier is `None` unless the backing store
assigned one: on the local package it is `None` until an upload records a
`put_object` response containing a `VersionId`, after which it is that
response's value; on the remote-backed package it is `None` when the head
response is absent, lacks a `VersionId`, or reports the literal `"null"`
(normalized to `None`), and otherwise is the head's `VersionId` verbatim. -/
theorem c10_object_version_id :
    (DeploymentPackage.object_version_id DeploymentPackage.initialPutObjectResponse
      = none) ∧
    (∀ resp : PutObjectResp,
      DeploymentPackage.object_version_id
        (DeploymentPackage.recordPutObjectResponse resp) = resp.versionId) ∧
    (∀ head : Option HeadObjectResp,
      DeploymentPackageS3Object.object_version_id head = none ↔
        (head = none ∨ ∃ h, head = some h ∧
          (h.versionId = none ∨ h.versionId = some "null"))) ∧
    (∀ (dm : Bool) (v : String), v ≠ "null" →
      DeploymentPackageS3Object.object_version_id (some ⟨dm, some v⟩) = some v) := by
  refine ⟨rfl, fun resp => rfl, ?_, ?_⟩
  · intro head
    cases head with
    | none => simp [DeploymentPackageS3Object.object_version_id]
    | some h =>
      cases hv : h.versionId with
      | none => simp [DeploymentPackageS3Object.object_version_id, hv]
      | some v =>
        by_cases hn : v = "null" <;>
          simp [DeploymentPackageS3Object.object_version_id, hv, hn]
  · intro dm v hv
    simp [DeploymentPackageS3Object.object_version_id, hv]

/-- Witness for C10 at a concrete versioned head response. -/
theorem c10_object_version_id_witness :
    DeploymentPackageS3Object.object_version_id (some ⟨false, some "v1"⟩) =
      some "v1" :=
  (c10_object_version_id).2.2.2 false "v1" (by decide)
